import Mathlib

/-!
Verification development for the ArcWelder geometric arc-fitting core.

The definitions below are a shallow embedding of the C++ sources
`arc_welder/segmented_shape.cpp` and `arc_welder/unwritten_command.h`.
C++ `double` arithmetic is modelled by exact real arithmetic (`ℝ`).
Helper declarations that live in headers not present here
(`utilities`, the numeric constants, `parsed_command`) are modelled from
the specification document and carry a doc comment saying so.
-/

open scoped Classical

namespace ArcWelder

noncomputable section

/-- The `point` struct: millimetre coordinates plus the extrusion delta of
the move arriving at this point. -/
structure point where
  x : ℝ
  y : ℝ
  z : ℝ
  e_relative : ℝ

/-- The `vector` struct. -/
structure vector where
  x : ℝ
  y : ℝ
  z : ℝ

/-- Embeds `operator -(point&, point&)` from segmented_shape.cpp: componentwise
difference of two points, as a vector. -/
def point.sub (lhs rhs : point) : vector :=
  ⟨lhs.x - rhs.x, lhs.y - rhs.y, lhs.z - rhs.z⟩

/-- Embeds `vector::get_magnitude`: Euclidean norm of the 3D vector. -/
def vector.get_magnitude (v : vector) : ℝ :=
  Real.sqrt (v.x * v.x + v.y * v.y + v.z * v.z)

/-- Embeds `vector::cross_product_magnitude`: the 2D (XY) cross product,
`v1.x * v2.y - v1.y * v2.x`. -/
def vector.cross_product_magnitude (v1 v2 : vector) : ℝ :=
  v1.x * v2.y - v1.y * v2.x

/-- The `circle` struct: XY-planar circle with a 3D center point. -/
structure circle where
  center : point
  radius : ℝ

/-- The `arc` struct: circle data plus start/end points, arc length and the
signed swept angle. -/
structure arc where
  center : point
  radius : ℝ
  start_point : point
  end_point : point
  length : ℝ
  angle_radians : ℝ

/-- Modelled from the spec: `CIRCLE_FLOATING_POINT_TOLERANCE` (defined in a
header not present here); the spec gives the value 1e-10, used for all
structural floating-point comparisons. -/
def CIRCLE_FLOATING_POINT_TOLERANCE : ℝ := 1e-10

/-- Modelled from the spec: `PI_DOUBLE` is pi as a double; modelled as the
real number pi. -/
def PI_DOUBLE : ℝ := Real.pi

/-- Modelled from the spec: `MIN_ALLOWED_ARC_THETA`, a small positive radians
threshold below which the arc direction cannot be determined reliably; the
spec recommends the order of 1e-3. -/
def MIN_ALLOWED_ARC_THETA : ℝ := 1e-3

/-- Modelled from the spec: `utilities::is_zero(x, tolerance)` detects the
vanishing of a quantity under a tolerance: `|x| < tolerance`. -/
def utilities.is_zero (x tolerance : ℝ) : Prop := |x| < tolerance

/-- Modelled from the spec: `utilities::is_equal(x, y, tolerance)` is equality
within a tolerance: `|x - y| < tolerance` (the spec states failure of the
length test when `|length − approximate_length| ≥ resolution`). -/
def utilities.is_equal (x y tolerance : ℝ) : Prop := |x - y| < tolerance

/-- Modelled from the spec: `utilities::less_than(x, y, tolerance)`.  The spec
pins down the one use relevant here, `circle::contains`, as the strict
comparison `|dist − radius| < tol` with a point deviating by exactly the
tolerance rejected, so `less_than` is the raw strict comparison. -/
def utilities.less_than (x y _tolerance : ℝ) : Prop := x < y

/-- Modelled from the spec: `utilities::less_than_or_equal(x, y, tolerance)`,
a tolerance-aware `≤`: true when `x < y` or `x` equals `y` within the
tolerance. -/
def utilities.less_than_or_equal (x y tolerance : ℝ) : Prop :=
  x < y ∨ utilities.is_equal x y tolerance

/-- Modelled from the spec: `utilities::greater_than_or_equal(x, y, tolerance)`,
a tolerance-aware `≥`: true when `x > y` or `x` equals `y` within the
tolerance. -/
def utilities.greater_than_or_equal (x y tolerance : ℝ) : Prop :=
  x > y ∨ utilities.is_equal x y tolerance

/-- Modelled from the spec: `utilities::get_cartesian_distance(x1,y1,x2,y2)`,
the Euclidean XY distance. -/
def utilities.get_cartesian_distance (x1 y1 x2 y2 : ℝ) : ℝ :=
  Real.sqrt ((x1 - x2) ^ 2 + (y1 - y2) ^ 2)

/-- The `segmented_shape` class fields (the point window `points_` is an
`array_list<point>` whose header is not present; modelled from the spec as
the list of points it holds). -/
structure segmented_shape where
  points_ : List point
  max_segments_ : ℤ
  resolution_mm_ : ℝ
  e_relative_ : ℝ
  is_shape_ : Bool
  min_segments_ : ℤ
  original_shape_length_ : ℝ
  is_extruding_ : Bool

/-- The constructor `segmented_shape(int min_segments, int max_segments,
double resolution_mm)`: stores `resolution_mm / 2.0` (plus or minus half of
the desired resolution), empty window, zero sums, `is_shape_ = false`,
`is_extruding_ = true`. -/
def segmented_shape.make (min_segments max_segments : ℤ) (resolution_mm : ℝ) :
    segmented_shape :=
  { points_ := []
    max_segments_ := max_segments
    resolution_mm_ := resolution_mm / 2
    e_relative_ := 0
    is_shape_ := false
    min_segments_ := min_segments
    original_shape_length_ := 0
    is_extruding_ := true }

/-- Embeds `segmented_shape::get_resolution_mm`. -/
def segmented_shape.get_resolution_mm (s : segmented_shape) : ℝ :=
  s.resolution_mm_

/-- Embeds `segmented_shape::set_resolution_mm`: stores the argument unhalved. -/
def segmented_shape.set_resolution_mm (s : segmented_shape) (resolution_mm : ℝ) :
    segmented_shape :=
  { s with resolution_mm_ := resolution_mm }

/-- Embeds `segmented_shape::get_min_segments`. -/
def segmented_shape.get_min_segments (s : segmented_shape) : ℤ :=
  s.min_segments_

/-- Embeds `segmented_shape::get_max_segments`. -/
def segmented_shape.get_max_segments (s : segmented_shape) : ℤ :=
  s.max_segments_

/-- Embeds `segmented_shape::operator=`: clears the window, resizes to the source
capacity and copies its points (the `array_list` copy is modelled from the
spec as taking over the source's point list), then copies
`original_shape_length_`, `e_relative_`, `is_shape_`, `max_segments_` and
`resolution_mm_`.  `min_segments_` and `is_extruding_` are not assigned. -/
def segmented_shape.assign (self obj : segmented_shape) : segmented_shape :=
  { self with
    points_ := obj.points_
    original_shape_length_ := obj.original_shape_length_
    e_relative_ := obj.e_relative_
    is_shape_ := obj.is_shape_
    max_segments_ := obj.max_segments_
    resolution_mm_ := obj.resolution_mm_ }

/-- The `unwritten_command` struct from unwritten_command.h.  The
`parsed_command` type lives in a header not present here and is modelled
from the spec as an abstract type parameter. -/
structure unwritten_command (parsed_command : Type) where
  is_extruder_relative : Bool
  e_relative : ℝ
  offset_e : ℝ
  command : parsed_command

/-- The two-argument constructor `unwritten_command(parsed_command& cmd,
bool is_relative)`: its body executes `is_relative = false;` (a dead store
to the parameter) and `command = cmd;`.  The member fields
`is_extruder_relative`, `e_relative` and `offset_e` are left uninitialized;
the indeterminate pre-existing contents are modelled by the `uninit`
argument, whose unassigned fields pass through unchanged. -/
def unwritten_command.make2 {parsed_command : Type}
    (uninit : unwritten_command parsed_command) (cmd : parsed_command)
    (_is_relative : Bool) : unwritten_command parsed_command :=
  { uninit with command := cmd }

/-- Embeds `circle::is_point_on_circle(p, resolution_mm)`: the absolute difference
between the XY distance from `p` to the center and the radius, tested with
`utilities::less_than` against `resolution_mm` under
`CIRCLE_FLOATING_POINT_TOLERANCE`. -/
def circle.is_point_on_circle (c : circle) (p : point) (resolution_mm : ℝ) : Prop :=
  utilities.less_than
    |utilities.get_cartesian_distance p.x p.y c.center.x c.center.y - c.radius|
    resolution_mm CIRCLE_FLOATING_POINT_TOLERANCE

/-- The local `a` of `circle::try_create_circle`:
`x1*(y2-y3) - y1*(x2-x3) + x2*y3 - x3*y2`. -/
def circle.det_a (p1 p2 p3 : point) : ℝ :=
  p1.x * (p2.y - p3.y) - p1.y * (p2.x - p3.x) + p2.x * p3.y - p3.x * p2.y

/-- The local `b` of `circle::try_create_circle`. -/
def circle.coef_b (p1 p2 p3 : point) : ℝ :=
  (p1.x * p1.x + p1.y * p1.y) * (p3.y - p2.y)
    + (p2.x * p2.x + p2.y * p2.y) * (p1.y - p3.y)
    + (p3.x * p3.x + p3.y * p3.y) * (p2.y - p1.y)

/-- The local `c` of `circle::try_create_circle`. -/
def circle.coef_c (p1 p2 p3 : point) : ℝ :=
  (p1.x * p1.x + p1.y * p1.y) * (p2.x - p3.x)
    + (p2.x * p2.x + p2.y * p2.y) * (p3.x - p1.x)
    + (p3.x * p3.x + p3.y * p3.y) * (p1.x - p2.x)

/-- Embeds `circle::try_create_circle(p1, p2, p3, new_circle)`: fails when the
determinant `a` is zero within `CIRCLE_FLOATING_POINT_TOLERANCE`; otherwise
writes center `(-b/(2a), -c/(2a))` with `z` from `p1` and the radius as the
XY distance from the center to `p1`.  The C++ out-parameter is modelled by
`new_circle`; its `center.e_relative` is the only field not assigned. -/
def circle.try_create_circle (p1 p2 p3 : point) (new_circle : circle) :
    Option circle :=
  if utilities.is_zero (circle.det_a p1 p2 p3) CIRCLE_FLOATING_POINT_TOLERANCE then
    none
  else
    let x := -circle.coef_b p1 p2 p3 / (2 * circle.det_a p1 p2 p3)
    let y := -circle.coef_c p1 p2 p3 / (2 * circle.det_a p1 p2 p3)
    some { new_circle with
           center := { new_circle.center with x := x, y := y, z := p1.z }
           radius := utilities.get_cartesian_distance x y p1.x p1.y }

/-- Embeds `circle::get_radians(p1, p2)`: law of cosines,
`acos((2r^2 - d^2) / (2r^2))` with `d` the XY distance between the points. -/
def circle.get_radians (c : circle) (p1 p2 : point) : ℝ :=
  Real.arccos ((2 * c.radius * c.radius
      - utilities.get_cartesian_distance p1.x p1.y p2.x p2.y ^ 2)
    / (2 * c.radius * c.radius))

/-- Embeds `circle::get_closest_point(p)`: radial projection of `p` onto the
circle, with a proportional z offset, `e_relative` set to 0. -/
def circle.get_closest_point (c : circle) (p : point) : point :=
  let v := point.sub p c.center
  let mag := v.get_magnitude
  ⟨c.center.x + v.x / mag * c.radius,
   c.center.y + v.y / mag * c.radius,
   c.center.z + v.z / mag * c.radius, 0⟩

/-- The projection parameter `t` of
`segment::get_closest_perpendicular_point`: the locals `num`, `denom`, `t`. -/
def segment.proj_t (p1 p2 c : point) : ℝ :=
  ((c.x - p1.x) * (p2.x - p1.x) + (c.y - p1.y) * (p2.y - p1.y))
    / ((p2.x - p1.x) ^ 2 + (p2.y - p1.y) ^ 2)

/-- Embeds `segment::get_closest_perpendicular_point(p1, p2, c, d)`: fails when
`t <= 0` or `t >= 1` within `CIRCLE_FLOATING_POINT_TOLERANCE` (a hit at an
endpoint is rejected); otherwise writes only `d.x` and `d.y` (the foot of
the perpendicular), leaving `d.z` and `d.e_relative` at the caller-supplied
values.  The C++ out-parameter is modelled by `d`. -/
def segment.get_closest_perpendicular_point (p1 p2 c d : point) : Option point :=
  let t := segment.proj_t p1 p2 c
  if utilities.less_than_or_equal t 0 CIRCLE_FLOATING_POINT_TOLERANCE ∨
      utilities.greater_than_or_equal t 1 CIRCLE_FLOATING_POINT_TOLERANCE then
    none
  else
    some { d with x := p1.x + t * (p2.x - p1.x), y := p1.y + t * (p2.y - p1.y) }

/-- The candidate cascade of `arc::try_create_arc`: tests, in the fixed
source order, the four combinations of short/long chord angles for a sum of
`2 * PI_DOUBLE` within `CIRCLE_FLOATING_POINT_TOLERANCE`, yielding the pair
`(angle_1, angle_2)` of the first match, or nothing. -/
def arc.resolve_angles (p1_p2_rad p2_p3_rad p3_p1_rad : ℝ) : Option (ℝ × ℝ) :=
  if utilities.is_equal (p1_p2_rad + p2_p3_rad + p3_p1_rad) (2 * PI_DOUBLE)
      CIRCLE_FLOATING_POINT_TOLERANCE then
    some (p1_p2_rad, p2_p3_rad)
  else if utilities.is_equal (p1_p2_rad + p2_p3_rad + (2 * PI_DOUBLE - p3_p1_rad))
      (2 * PI_DOUBLE) CIRCLE_FLOATING_POINT_TOLERANCE then
    some (p2_p3_rad, p1_p2_rad)
  else if utilities.is_equal ((2 * PI_DOUBLE - p1_p2_rad) + p2_p3_rad + p3_p1_rad)
      (2 * PI_DOUBLE) CIRCLE_FLOATING_POINT_TOLERANCE then
    some (2 * PI_DOUBLE - p1_p2_rad, p2_p3_rad)
  else if utilities.is_equal (p1_p2_rad + (2 * PI_DOUBLE - p2_p3_rad) + p3_p1_rad)
      (2 * PI_DOUBLE) CIRCLE_FLOATING_POINT_TOLERANCE then
    some (p1_p2_rad, 2 * PI_DOUBLE - p2_p3_rad)
  else
    none

/-- Embeds `arc::try_create_arc(c, start, mid, end, approximate_length, resolution,
target_arc)`: snaps the witness points onto the circle, resolves the swept
angle via the candidate cascade, rejects on a length mismatch or a swept
angle below `MIN_ALLOWED_ARC_THETA`, determines direction by the raw sign of
the 2D cross product of the snapped differences, and fills the arc record.
The C++ out-parameter is modelled by `target_arc`; its `center.e_relative`
is the only field not assigned. -/
def arc.try_create_arc (c : circle) (start_point mid_point end_point : point)
    (approximate_length resolution : ℝ) (target_arc : arc) : Option arc :=
  let p1 := c.get_closest_point start_point
  let p2 := c.get_closest_point mid_point
  let p3 := c.get_closest_point end_point
  match arc.resolve_angles (c.get_radians p1 p2) (c.get_radians p2 p3)
      (c.get_radians p3 p1) with
  | none => none
  | some (angle_1, angle_2) =>
    let angle_radians := angle_1 + angle_2
    let length := angle_radians * c.radius
    if ¬ utilities.is_equal length approximate_length resolution then
      none
    else if angle_radians < MIN_ALLOWED_ARC_THETA then
      none
    else
      let v1 := point.sub p1 p2
      let v2 := point.sub p3 p2
      let magnitude1 := vector.cross_product_magnitude v1 v2
      some { target_arc with
             center := { target_arc.center with
                         x := c.center.x, y := c.center.y, z := c.center.z }
             radius := c.radius
             start_point := start_point
             end_point := end_point
             length := length
             angle_radians := if magnitude1 > 0 then -angle_radians else angle_radians }

/-- Concrete input: the origin. -/
def pO : point := ⟨0, 0, 0, 0⟩

/-- Concrete input: the point (1,0,0). -/
def pE : point := ⟨1, 0, 0, 0⟩

/-- Concrete input: the point (0,1,0). -/
def pN : point := ⟨0, 1, 0, 0⟩

/-- Concrete input: the point (-1,0,0). -/
def pW : point := ⟨-1, 0, 0, 0⟩

/-- Concrete input: the point (0,-1,0). -/
def pS : point := ⟨0, -1, 0, 0⟩

/-- Concrete input: the point (2,0,0). -/
def pE2 : point := ⟨2, 0, 0, 0⟩

/-- Concrete input: the point (0,2,0). -/
def pN2 : point := ⟨0, 2, 0, 0⟩

/-- Concrete input for the perpendicular-foot evaluation. -/
def cMid : point := ⟨1, 5, 0, 0⟩

/-- Concrete out-parameter with a recognisable z value. -/
def dOut : point := ⟨9, 9, 7, 3⟩

/-- Concrete input: the unit circle about the origin. -/
def unitCircle : circle := ⟨pO, 1⟩

/-- Concrete input: a circle record with radius -1 (the radius field of the
`circle` struct is an arbitrary double). -/
def negCircle : circle := ⟨pO, -1⟩

/-- Concrete out-parameter for `arc::try_create_arc`. -/
def dummyArc : arc := ⟨pO, 0, pO, pO, 0, 0⟩

/-- The arc produced from the unit circle through (1,0), (0,1), (-1,0). -/
def arcQuarterHalf : arc := ⟨pO, 1, pE, pW, Real.pi, Real.pi⟩

/-- The arc produced from the radius -1 circle record through the same
witness points: its length is negative. -/
def arcNegative : arc := ⟨pO, -1, pE, pW, -Real.pi, Real.pi⟩

/-- The circle produced from (0,0), (2,0), (0,2). -/
def cWitness : circle := ⟨⟨1, 1, 0, 0⟩, Real.sqrt 2⟩

end

/-- C8: constructing a `segmented_shape` with `resolution_mm = r` stores
`r / 2`, so `get_resolution_mm` returns `r / 2`; calling
`set_resolution_mm r` on an existing instance stores `r` unhalved, so the
setter/getter pair round-trips the value unchanged. -/
theorem segmented_shape_resolution_halving (min_segments max_segments : ℤ)
    (r : ℝ) (s : segmented_shape) :
    (segmented_shape.make min_segments max_segments r).get_resolution_mm = r / 2 ∧
    (s.set_resolution_mm r).get_resolution_mm = r := by
  exact ⟨rfl, rfl⟩

/-- C9: copy-assignment `a = b` copies `b`'s point window, `max_segments_`,
`resolution_mm_`, `e_relative_` sum, `is_shape_` flag and original shape
length into `a`, but leaves `a`'s `min_segments_` unchanged:
`get_min_segments` afterwards still returns the value `a` held before,
whatever `b`'s `min_segments_` is. -/
theorem segmented_shape_assign_frame (a b : segmented_shape) :
    (a.assign b).points_ = b.points_ ∧
    (a.assign b).max_segments_ = b.max_segments_ ∧
    (a.assign b).resolution_mm_ = b.resolution_mm_ ∧
    (a.assign b).e_relative_ = b.e_relative_ ∧
    (a.assign b).is_shape_ = b.is_shape_ ∧
    (a.assign b).original_shape_length_ = b.original_shape_length_ ∧
    (a.assign b).get_min_segments = a.get_min_segments := by
  exact ⟨rfl, rfl, rfl, rfl, rfl, rfl, rfl⟩

/-- C10: the two-argument constructor `unwritten_command(cmd, b)` produces
the same record for every value of the boolean `is_relative` parameter: the
parameter has no influence on the constructed record, and in particular the
`is_extruder_relative` field is never assigned from it (it keeps its
indeterminate pre-existing value). -/
theorem unwritten_command_bool_irrelevant {parsed_command : Type}
    (uninit : unwritten_command parsed_command) (cmd : parsed_command)
    (b1 b2 : Bool) :
    unwritten_command.make2 uninit cmd b1 = unwritten_command.make2 uninit cmd b2 ∧
    (unwritten_command.make2 uninit cmd b1).is_extruder_relative =
      uninit.is_extruder_relative := by
  exact ⟨rfl, rfl⟩

theorem sqrt_four : Real.sqrt 4 = 2 := by
  rw [show (4 : ℝ) = 2 ^ 2 by norm_num, Real.sqrt_sq (by norm_num : (0 : ℝ) ≤ 2)]

/-- C5: `circle::is_point_on_circle(p, tol)` returns true exactly when the
absolute difference between the XY distance from `p` to the center and the
radius is strictly less than `tol`; a point whose deviation equals `tol`
exactly is rejected. -/
theorem is_point_on_circle_iff (c : circle) (p : point) (tol : ℝ) :
    (c.is_point_on_circle p tol ↔
      |utilities.get_cartesian_distance p.x p.y c.center.x c.center.y - c.radius| < tol) ∧
    (|utilities.get_cartesian_distance p.x p.y c.center.x c.center.y - c.radius| = tol →
      ¬ c.is_point_on_circle p tol) := by
  constructor
  · exact Iff.rfl
  · intro heq hmem
    exact absurd hmem (by simp [circle.is_point_on_circle, utilities.less_than, heq])

theorem is_point_on_circle_iff_witness :
    |utilities.get_cartesian_distance pE2.x pE2.y unitCircle.center.x unitCircle.center.y
      - unitCircle.radius| = 1 ∧
    ¬ unitCircle.is_point_on_circle pE2 1 := by
  have hd : utilities.get_cartesian_distance pE2.x pE2.y unitCircle.center.x
      unitCircle.center.y = 2 := by
    unfold utilities.get_cartesian_distance pE2 unitCircle pO
    norm_num
    exact sqrt_four
  have habs : |utilities.get_cartesian_distance pE2.x pE2.y unitCircle.center.x
      unitCircle.center.y - unitCircle.radius| = 1 := by
    rw [hd]
    norm_num [unitCircle]
  exact ⟨habs, (is_point_on_circle_iff unitCircle pE2 1).2 habs⟩

/-- C6: for two points on the circle, `circle::get_radians` returns
`acos((2r^2 - d^2)/(2r^2))` with `d` their XY distance, a value lying in
the closed interval `[0, pi]` (the short, non-reflex angle). -/
theorem get_radians_law_of_cosines (c : circle) (p1 p2 : point)
    (h1 : utilities.get_cartesian_distance p1.x p1.y c.center.x c.center.y = c.radius)
    (h2 : utilities.get_cartesian_distance p2.x p2.y c.center.x c.center.y = c.radius) :
    c.get_radians p1 p2 =
      Real.arccos ((2 * c.radius ^ 2
          - utilities.get_cartesian_distance p1.x p1.y p2.x p2.y ^ 2)
        / (2 * c.radius ^ 2)) ∧
    0 ≤ c.get_radians p1 p2 ∧ c.get_radians p1 p2 ≤ Real.pi := by
  refine ⟨?_, Real.arccos_nonneg _, Real.arccos_le_pi _⟩
  unfold circle.get_radians
  ring_nf

theorem get_radians_law_of_cosines_witness :
    unitCircle.get_radians pE pN =
      Real.arccos ((2 * unitCircle.radius ^ 2
          - utilities.get_cartesian_distance pE.x pE.y pN.x pN.y ^ 2)
        / (2 * unitCircle.radius ^ 2)) ∧
    0 ≤ unitCircle.get_radians pE pN ∧ unitCircle.get_radians pE pN ≤ Real.pi := by
  refine get_radians_law_of_cosines unitCircle pE pN ?_ ?_
  · unfold utilities.get_cartesian_distance pE unitCircle pO
    norm_num
  · unfold utilities.get_cartesian_distance pN unitCircle pO
    norm_num

/-- C7: for a segment with distinct XY endpoints,
`segment::get_closest_perpendicular_point` fails exactly when the projection
parameter `t` satisfies `t <= 0` or `t >= 1` within
`CIRCLE_FLOATING_POINT_TOLERANCE`; on success the output point carries the
foot `p1 + t*(p2 - p1)` in x and y and keeps the caller-supplied z. -/
theorem get_closest_perpendicular_point_spec (p1 p2 c d : point)
    (_hne : ¬ (p1.x = p2.x ∧ p1.y = p2.y)) :
    (segment.get_closest_perpendicular_point p1 p2 c d = none ↔
      utilities.less_than_or_equal (segment.proj_t p1 p2 c) 0
          CIRCLE_FLOATING_POINT_TOLERANCE ∨
        utilities.greater_than_or_equal (segment.proj_t p1 p2 c) 1
          CIRCLE_FLOATING_POINT_TOLERANCE) ∧
    ∀ q, segment.get_closest_perpendicular_point p1 p2 c d = some q →
      q.x = p1.x + segment.proj_t p1 p2 c * (p2.x - p1.x) ∧
      q.y = p1.y + segment.proj_t p1 p2 c * (p2.y - p1.y) ∧
      q.z = d.z := by
  simp only [segment.get_closest_perpendicular_point]
  split_ifs with h
  · exact ⟨by simp [h], by intro q hq; exact absurd hq (by simp)⟩
  · refine ⟨by simp [h], ?_⟩
    intro q hq
    rw [Option.some.injEq] at hq
    subst hq
    exact ⟨rfl, rfl, rfl⟩

theorem get_closest_perpendicular_point_spec_witness :
    segment.get_closest_perpendicular_point pO pE2 cMid dOut ≠ none ∧
    ∀ q, segment.get_closest_perpendicular_point pO pE2 cMid dOut = some q →
      q.z = 7 := by
  have ht : segment.proj_t pO pE2 cMid = 1 / 2 := by
    unfold segment.proj_t pO pE2 cMid
    norm_num
  have h := get_closest_perpendicular_point_spec pO pE2 cMid dOut
    (by unfold pO pE2; norm_num)
  constructor
  · intro hn
    have hc := h.1.mp hn
    rw [ht] at hc
    norm_num [utilities.less_than_or_equal, utilities.greater_than_or_equal,
      utilities.is_equal, CIRCLE_FLOATING_POINT_TOLERANCE, abs_lt] at hc
  · intro q hq
    exact ((h.2 q hq).2.2).trans rfl

set_option maxHeartbeats 1000000 in
theorem circumcenter_radicand_eq (p1 p2 p3 : point) (h : circle.det_a p1 p2 p3 ≠ 0) :
    ((-circle.coef_b p1 p2 p3 / (2 * circle.det_a p1 p2 p3) - p1.x) ^ 2 +
        (-circle.coef_c p1 p2 p3 / (2 * circle.det_a p1 p2 p3) - p1.y) ^ 2 =
      (-circle.coef_b p1 p2 p3 / (2 * circle.det_a p1 p2 p3) - p2.x) ^ 2 +
        (-circle.coef_c p1 p2 p3 / (2 * circle.det_a p1 p2 p3) - p2.y) ^ 2) ∧
    ((-circle.coef_b p1 p2 p3 / (2 * circle.det_a p1 p2 p3) - p1.x) ^ 2 +
        (-circle.coef_c p1 p2 p3 / (2 * circle.det_a p1 p2 p3) - p1.y) ^ 2 =
      (-circle.coef_b p1 p2 p3 / (2 * circle.det_a p1 p2 p3) - p3.x) ^ 2 +
        (-circle.coef_c p1 p2 p3 / (2 * circle.det_a p1 p2 p3) - p3.y) ^ 2) := by
  unfold circle.det_a circle.coef_b circle.coef_c at *
  constructor <;> (field_simp; ring)

/-- C4: `circle::try_create_circle` fails exactly when the determinant `a`
is zero within `CIRCLE_FLOATING_POINT_TOLERANCE`; otherwise it succeeds and
the produced circle has center `(-b/(2a), -c/(2a))`, center z taken from
`p1`, and radius equal to the Euclidean XY distance from the center to any
of the three defining points. -/
theorem try_create_circle_spec (p1 p2 p3 : point) (new_circle : circle) :
    (circle.try_create_circle p1 p2 p3 new_circle = none ↔
      utilities.is_zero (circle.det_a p1 p2 p3) CIRCLE_FLOATING_POINT_TOLERANCE) ∧
    ∀ c, circle.try_create_circle p1 p2 p3 new_circle = some c →
      c.center.x = -circle.coef_b p1 p2 p3 / (2 * circle.det_a p1 p2 p3) ∧
      c.center.y = -circle.coef_c p1 p2 p3 / (2 * circle.det_a p1 p2 p3) ∧
      c.center.z = p1.z ∧
      c.radius = utilities.get_cartesian_distance c.center.x c.center.y p1.x p1.y ∧
      c.radius = utilities.get_cartesian_distance c.center.x c.center.y p2.x p2.y ∧
      c.radius = utilities.get_cartesian_distance c.center.x c.center.y p3.x p3.y := by
  simp only [circle.try_create_circle]
  split_ifs with h
  · exact ⟨by simp [h], fun c hc => absurd hc (by simp)⟩
  · have hdet : circle.det_a p1 p2 p3 ≠ 0 := by
      intro hz
      refine h ?_
      unfold utilities.is_zero CIRCLE_FLOATING_POINT_TOLERANCE
      rw [hz]
      norm_num
    refine ⟨by simp [h], ?_⟩
    intro c hc
    rw [Option.some.injEq] at hc
    subst hc
    refine ⟨rfl, rfl, rfl, rfl, ?_, ?_⟩
    · exact congrArg Real.sqrt (circumcenter_radicand_eq p1 p2 p3 hdet).1
    · exact congrArg Real.sqrt (circumcenter_radicand_eq p1 p2 p3 hdet).2

theorem try_create_circle_spec_witness :
    circle.try_create_circle pO pE2 pN2 ⟨pO, 0⟩ = some cWitness ∧
    cWitness.radius = utilities.get_cartesian_distance cWitness.center.x
      cWitness.center.y pE2.x pE2.y := by
  have heval : circle.try_create_circle pO pE2 pN2 ⟨pO, 0⟩ = some cWitness := by
    simp only [circle.try_create_circle]
    rw [if_neg]
    · rw [Option.some.injEq]
      unfold cWitness pO pE2 pN2 circle.det_a circle.coef_b circle.coef_c
        utilities.get_cartesian_distance
      simp only [circle.mk.injEq, point.mk.injEq]
      norm_num
    · unfold utilities.is_zero circle.det_a CIRCLE_FLOATING_POINT_TOLERANCE pO pE2 pN2
      norm_num
  refine ⟨heval, ?_⟩
  exact ((try_create_circle_spec pO pE2 pN2 ⟨pO, 0⟩).2 cWitness heval).2.2.2.2.1

theorem arccos_half : Real.arccos (1 / 2) = Real.pi / 3 := by
  rw [show (1 / 2 : ℝ) = Real.cos (Real.pi / 3) by rw [Real.cos_pi_div_three]]
  exact Real.arccos_cos (by positivity) (by linarith [Real.pi_pos])

theorem closest_point_unit_pE : unitCircle.get_closest_point pE = pE := by
  unfold circle.get_closest_point point.sub vector.get_magnitude unitCircle pO pE
  simp only [point.mk.injEq]
  norm_num

theorem closest_point_unit_pN : unitCircle.get_closest_point pN = pN := by
  unfold circle.get_closest_point point.sub vector.get_magnitude unitCircle pO pN
  simp only [point.mk.injEq]
  norm_num

theorem closest_point_unit_pW : unitCircle.get_closest_point pW = pW := by
  unfold circle.get_closest_point point.sub vector.get_magnitude unitCircle pO pW
  simp only [point.mk.injEq]
  norm_num

theorem closest_point_unit_pO : unitCircle.get_closest_point pO = pO := by
  unfold circle.get_closest_point point.sub vector.get_magnitude unitCircle pO
  simp only [point.mk.injEq]
  norm_num

theorem closest_point_neg_pE : negCircle.get_closest_point pE = pW := by
  unfold circle.get_closest_point point.sub vector.get_magnitude negCircle pO pE pW
  simp only [point.mk.injEq]
  norm_num

theorem closest_point_neg_pN : negCircle.get_closest_point pN = pS := by
  unfold circle.get_closest_point point.sub vector.get_magnitude negCircle pO pN pS
  simp only [point.mk.injEq]
  norm_num

theorem closest_point_neg_pW : negCircle.get_closest_point pW = pE := by
  unfold circle.get_closest_point point.sub vector.get_magnitude negCircle pO pW pE
  simp only [point.mk.injEq]
  norm_num

theorem radians_unit_pE_pN : unitCircle.get_radians pE pN = Real.pi / 2 := by
  unfold circle.get_radians utilities.get_cartesian_distance unitCircle pO pE pN
  norm_num

theorem radians_unit_pN_pW : unitCircle.get_radians pN pW = Real.pi / 2 := by
  unfold circle.get_radians utilities.get_cartesian_distance unitCircle pO pN pW
  norm_num

theorem radians_unit_pW_pE : unitCircle.get_radians pW pE = Real.pi := by
  unfold circle.get_radians utilities.get_cartesian_distance unitCircle pO pW pE
  norm_num

theorem radians_unit_pO_pE : unitCircle.get_radians pO pE = Real.pi / 3 := by
  unfold circle.get_radians utilities.get_cartesian_distance unitCircle pO pE
  norm_num
  exact arccos_half

theorem radians_unit_pN_pO : unitCircle.get_radians pN pO = Real.pi / 3 := by
  unfold circle.get_radians utilities.get_cartesian_distance unitCircle pO pN
  norm_num
  exact arccos_half

theorem radians_neg_pW_pS : negCircle.get_radians pW pS = Real.pi / 2 := by
  unfold circle.get_radians utilities.get_cartesian_distance negCircle pO pW pS
  norm_num

theorem radians_neg_pS_pE : negCircle.get_radians pS pE = Real.pi / 2 := by
  unfold circle.get_radians utilities.get_cartesian_distance negCircle pO pS pE
  norm_num

theorem radians_neg_pE_pW : negCircle.get_radians pE pW = Real.pi := by
  unfold circle.get_radians utilities.get_cartesian_distance negCircle pO pE pW
  norm_num

theorem resolve_quarter :
    arc.resolve_angles (Real.pi / 2) (Real.pi / 2) Real.pi =
      some (Real.pi / 2, Real.pi / 2) := by
  unfold arc.resolve_angles
  rw [if_pos]
  unfold utilities.is_equal PI_DOUBLE CIRCLE_FLOATING_POINT_TOLERANCE
  rw [show Real.pi / 2 + Real.pi / 2 + Real.pi - 2 * Real.pi = 0 by ring]
  norm_num

theorem resolve_degenerate :
    arc.resolve_angles (Real.pi / 3) (Real.pi / 2) (Real.pi / 3) = none := by
  unfold arc.resolve_angles
  rw [if_neg, if_neg, if_neg, if_neg]
  · unfold utilities.is_equal PI_DOUBLE CIRCLE_FLOATING_POINT_TOLERANCE
    rw [show Real.pi / 3 + (2 * Real.pi - Real.pi / 2) + Real.pi / 3 - 2 * Real.pi
        = Real.pi / 6 by ring, abs_of_pos (by positivity)]
    intro hlt
    nlinarith [Real.pi_gt_three]
  · unfold utilities.is_equal PI_DOUBLE CIRCLE_FLOATING_POINT_TOLERANCE
    rw [show 2 * Real.pi - Real.pi / 3 + Real.pi / 2 + Real.pi / 3 - 2 * Real.pi
        = Real.pi / 2 by ring, abs_of_pos (by positivity)]
    intro hlt
    nlinarith [Real.pi_gt_three]
  · unfold utilities.is_equal PI_DOUBLE CIRCLE_FLOATING_POINT_TOLERANCE
    rw [show Real.pi / 3 + Real.pi / 2 + (2 * Real.pi - Real.pi / 3) - 2 * Real.pi
        = Real.pi / 2 by ring, abs_of_pos (by positivity)]
    intro hlt
    nlinarith [Real.pi_gt_three]
  · unfold utilities.is_equal PI_DOUBLE CIRCLE_FLOATING_POINT_TOLERANCE
    rw [show Real.pi / 3 + Real.pi / 2 + Real.pi / 3 - 2 * Real.pi
        = -(5 * Real.pi / 6) by ring, abs_neg, abs_of_pos (by positivity)]
    intro hlt
    nlinarith [Real.pi_gt_three]

theorem eval_try_arc_quarter :
    arc.try_create_arc unitCircle pE pN pW Real.pi 1 dummyArc = some arcQuarterHalf := by
  have hsum : Real.pi / 2 + Real.pi / 2 = Real.pi := by ring
  simp only [arc.try_create_arc, closest_point_unit_pE, closest_point_unit_pN,
    closest_point_unit_pW, radians_unit_pE_pN, radians_unit_pN_pW, radians_unit_pW_pE,
    resolve_quarter, hsum]
  rw [if_neg, if_neg, if_neg]
  · unfold dummyArc arcQuarterHalf unitCircle pO
    simp only [Option.some.injEq, arc.mk.injEq, point.mk.injEq]
    norm_num
  · unfold point.sub vector.cross_product_magnitude pE pN pW
    norm_num
  · unfold MIN_ALLOWED_ARC_THETA
    intro hlt
    norm_num at hlt
    nlinarith [Real.pi_gt_three]
  · unfold utilities.is_equal unitCircle
    norm_num

theorem eval_try_arc_negative :
    arc.try_create_arc negCircle pE pN pW (-Real.pi) 1 dummyArc = some arcNegative := by
  have hsum : Real.pi / 2 + Real.pi / 2 = Real.pi := by ring
  simp only [arc.try_create_arc, closest_point_neg_pE, closest_point_neg_pN,
    closest_point_neg_pW, radians_neg_pW_pS, radians_neg_pS_pE, radians_neg_pE_pW,
    resolve_quarter, hsum]
  rw [if_neg, if_neg, if_neg]
  · unfold dummyArc arcNegative negCircle pO
    simp only [Option.some.injEq, arc.mk.injEq, point.mk.injEq]
    norm_num
  · unfold point.sub vector.cross_product_magnitude pW pS pE
    norm_num
  · unfold MIN_ALLOWED_ARC_THETA
    intro hlt
    norm_num at hlt
    nlinarith [Real.pi_gt_three]
  · unfold utilities.is_equal negCircle
    norm_num

/-- C1: whenever `arc::try_create_arc` succeeds, the direction of the
resulting arc is determined by the raw sign of the 2D cross product of
(snapped start - snapped mid) and (snapped end - snapped mid): strictly
positive means clockwise and `angle_radians` is negated (so it is negative);
otherwise (including exactly zero) the arc is counter-clockwise and
`angle_radians` stays positive. -/
theorem try_create_arc_direction (c : circle) (sp mp ep : point)
    (approximate_length resolution : ℝ) (target_arc a : arc)
    (h : arc.try_create_arc c sp mp ep approximate_length resolution target_arc
      = some a) :
    (0 < vector.cross_product_magnitude
        (point.sub (c.get_closest_point sp) (c.get_closest_point mp))
        (point.sub (c.get_closest_point ep) (c.get_closest_point mp)) →
      a.angle_radians < 0) ∧
    (¬ 0 < vector.cross_product_magnitude
        (point.sub (c.get_closest_point sp) (c.get_closest_point mp))
        (point.sub (c.get_closest_point ep) (c.get_closest_point mp)) →
      0 < a.angle_radians) := by
  simp only [arc.try_create_arc] at h
  rcases hres : arc.resolve_angles
      (c.get_radians (c.get_closest_point sp) (c.get_closest_point mp))
      (c.get_radians (c.get_closest_point mp) (c.get_closest_point ep))
      (c.get_radians (c.get_closest_point ep) (c.get_closest_point sp))
    with _ | ⟨angle_1, angle_2⟩
  · rw [hres] at h
    exact absurd h (by simp)
  · rw [hres] at h
    dsimp only at h
    split_ifs at h with hlen hmin hmag
    · rw [Option.some.injEq] at h
      subst h
      have hpos : (0 : ℝ) < angle_1 + angle_2 := by
        unfold MIN_ALLOWED_ARC_THETA at hmin
        push_neg at hmin
        linarith
      constructor
      · intro _
        dsimp only
        linarith
      · intro hcon
        exact absurd hmag hcon
    · rw [Option.some.injEq] at h
      subst h
      have hpos : (0 : ℝ) < angle_1 + angle_2 := by
        unfold MIN_ALLOWED_ARC_THETA at hmin
        push_neg at hmin
        linarith
      constructor
      · intro hcon
        exact absurd hcon hmag
      · intro _
        dsimp only
        exact hpos

theorem try_create_arc_direction_witness :
    arc.try_create_arc unitCircle pE pN pW Real.pi 1 dummyArc = some arcQuarterHalf ∧
    0 < arcQuarterHalf.angle_radians := by
  refine ⟨eval_try_arc_quarter, ?_⟩
  refine (try_create_arc_direction unitCircle pE pN pW Real.pi 1 dummyArc
    arcQuarterHalf eval_try_arc_quarter).2 ?_
  rw [closest_point_unit_pE, closest_point_unit_pN, closest_point_unit_pW]
  unfold point.sub vector.cross_product_magnitude pE pN pW
  norm_num

/-- C2: `arc::try_create_arc` resolves the swept angle by testing, in a
fixed order, four candidate combinations of short/long chord angles for a
sum of `2 * PI_DOUBLE` within `CIRCLE_FLOATING_POINT_TOLERANCE`, the swept
angle being the sum of the two angles of the first matching combination
((a) t12+t23; (b) the same total relabelled as t23+t12; (c) (2pi-t12)+t23;
(d) t12+(2pi-t23)); whenever none of the four candidate sums matches,
`try_create_arc` fails. -/
theorem try_create_arc_candidates (c : circle) (sp mp ep : point)
    (approximate_length resolution : ℝ) (target_arc : arc) :
    (∀ t12 t23 t31 : ℝ,
      (utilities.is_equal (t12 + t23 + t31) (2 * PI_DOUBLE)
          CIRCLE_FLOATING_POINT_TOLERANCE →
        arc.resolve_angles t12 t23 t31 = some (t12, t23)) ∧
      (¬ utilities.is_equal (t12 + t23 + t31) (2 * PI_DOUBLE)
          CIRCLE_FLOATING_POINT_TOLERANCE →
        utilities.is_equal (t12 + t23 + (2 * PI_DOUBLE - t31)) (2 * PI_DOUBLE)
          CIRCLE_FLOATING_POINT_TOLERANCE →
        arc.resolve_angles t12 t23 t31 = some (t23, t12)) ∧
      (¬ utilities.is_equal (t12 + t23 + t31) (2 * PI_DOUBLE)
          CIRCLE_FLOATING_POINT_TOLERANCE →
        ¬ utilities.is_equal (t12 + t23 + (2 * PI_DOUBLE - t31)) (2 * PI_DOUBLE)
          CIRCLE_FLOATING_POINT_TOLERANCE →
        utilities.is_equal ((2 * PI_DOUBLE - t12) + t23 + t31) (2 * PI_DOUBLE)
          CIRCLE_FLOATING_POINT_TOLERANCE →
        arc.resolve_angles t12 t23 t31 = some (2 * PI_DOUBLE - t12, t23)) ∧
      (¬ utilities.is_equal (t12 + t23 + t31) (2 * PI_DOUBLE)
          CIRCLE_FLOATING_POINT_TOLERANCE →
        ¬ utilities.is_equal (t12 + t23 + (2 * PI_DOUBLE - t31)) (2 * PI_DOUBLE)
          CIRCLE_FLOATING_POINT_TOLERANCE →
        ¬ utilities.is_equal ((2 * PI_DOUBLE - t12) + t23 + t31) (2 * PI_DOUBLE)
          CIRCLE_FLOATING_POINT_TOLERANCE →
        utilities.is_equal (t12 + (2 * PI_DOUBLE - t23) + t31) (2 * PI_DOUBLE)
          CIRCLE_FLOATING_POINT_TOLERANCE →
        arc.resolve_angles t12 t23 t31 = some (t12, 2 * PI_DOUBLE - t23)) ∧
      (¬ utilities.is_equal (t12 + t23 + t31) (2 * PI_DOUBLE)
          CIRCLE_FLOATING_POINT_TOLERANCE →
        ¬ utilities.is_equal (t12 + t23 + (2 * PI_DOUBLE - t31)) (2 * PI_DOUBLE)
          CIRCLE_FLOATING_POINT_TOLERANCE →
        ¬ utilities.is_equal ((2 * PI_DOUBLE - t12) + t23 + t31) (2 * PI_DOUBLE)
          CIRCLE_FLOATING_POINT_TOLERANCE →
        ¬ utilities.is_equal (t12 + (2 * PI_DOUBLE - t23) + t31) (2 * PI_DOUBLE)
          CIRCLE_FLOATING_POINT_TOLERANCE →
        arc.resolve_angles t12 t23 t31 = none)) ∧
    (arc.resolve_angles
        (c.get_radians (c.get_closest_point sp) (c.get_closest_point mp))
        (c.get_radians (c.get_closest_point mp) (c.get_closest_point ep))
        (c.get_radians (c.get_closest_point ep) (c.get_closest_point sp)) = none →
      arc.try_create_arc c sp mp ep approximate_length resolution target_arc
        = none) ∧
    (∀ a, arc.try_create_arc c sp mp ep approximate_length resolution target_arc
        = some a →
      ∃ angle_1 angle_2,
        arc.resolve_angles
            (c.get_radians (c.get_closest_point sp) (c.get_closest_point mp))
            (c.get_radians (c.get_closest_point mp) (c.get_closest_point ep))
            (c.get_radians (c.get_closest_point ep) (c.get_closest_point sp))
          = some (angle_1, angle_2) ∧
        |a.angle_radians| = angle_1 + angle_2) := by
  refine ⟨?_, ?_, ?_⟩
  · intro t12 t23 t31
    refine ⟨?_, ?_, ?_, ?_, ?_⟩
    · intro h1
      unfold arc.resolve_angles
      rw [if_pos h1]
    · intro h1 h2
      unfold arc.resolve_angles
      rw [if_neg h1, if_pos h2]
    · intro h1 h2 h3
      unfold arc.resolve_angles
      rw [if_neg h1, if_neg h2, if_pos h3]
    · intro h1 h2 h3 h4
      unfold arc.resolve_angles
      rw [if_neg h1, if_neg h2, if_neg h3, if_pos h4]
    · intro h1 h2 h3 h4
      unfold arc.resolve_angles
      rw [if_neg h1, if_neg h2, if_neg h3, if_neg h4]
  · intro hres
    simp only [arc.try_create_arc]
    rw [hres]
  · intro a h
    simp only [arc.try_create_arc] at h
    rcases hres : arc.resolve_angles
        (c.get_radians (c.get_closest_point sp) (c.get_closest_point mp))
        (c.get_radians (c.get_closest_point mp) (c.get_closest_point ep))
        (c.get_radians (c.get_closest_point ep) (c.get_closest_point sp))
      with _ | ⟨angle_1, angle_2⟩
    · rw [hres] at h
      exact absurd h (by simp)
    · rw [hres] at h
      dsimp only at h
      split_ifs at h with hlen hmin hmag
      · rw [Option.some.injEq] at h
        subst h
        refine ⟨angle_1, angle_2, rfl, ?_⟩
        have hpos : (0 : ℝ) < angle_1 + angle_2 := by
          unfold MIN_ALLOWED_ARC_THETA at hmin
          push_neg at hmin
          linarith
        dsimp only
        rw [abs_of_nonpos (by linarith)]
        ring
      · rw [Option.some.injEq] at h
        subst h
        refine ⟨angle_1, angle_2, rfl, ?_⟩
        have hpos : (0 : ℝ) < angle_1 + angle_2 := by
          unfold MIN_ALLOWED_ARC_THETA at hmin
          push_neg at hmin
          linarith
        dsimp only
        rw [abs_of_pos hpos]

theorem try_create_arc_candidates_witness :
    arc.try_create_arc unitCircle pO pE pN 0 1 dummyArc = none := by
  refine (try_create_arc_candidates unitCircle pO pE pN 0 1 dummyArc).2.1 ?_
  rw [closest_point_unit_pO, closest_point_unit_pE, closest_point_unit_pN,
    radians_unit_pO_pE, radians_unit_pE_pN, radians_unit_pN_pO]
  exact resolve_degenerate

/-- C3 (amended): `arc::try_create_arc` fails whenever the resolved swept
angle times the circle radius differs from `approximate_length` by at least
`resolution`; on success the returned arc satisfies
`length = |angle_radians| * radius`, and the length is nonnegative whenever
the supplied circle's radius is nonnegative (the radius field of the
`circle` argument is an arbitrary double, and a negative radius yields a
negative length, as the counterexample shows). -/
theorem try_create_arc_length_spec (c : circle) (sp mp ep : point)
    (approximate_length resolution : ℝ) (target_arc : arc) :
    (∀ angle_1 angle_2,
      arc.resolve_angles
          (c.get_radians (c.get_closest_point sp) (c.get_closest_point mp))
          (c.get_radians (c.get_closest_point mp) (c.get_closest_point ep))
          (c.get_radians (c.get_closest_point ep) (c.get_closest_point sp))
        = some (angle_1, angle_2) →
      ¬ utilities.is_equal ((angle_1 + angle_2) * c.radius) approximate_length
          resolution →
      arc.try_create_arc c sp mp ep approximate_length resolution target_arc
        = none) ∧
    (∀ a, arc.try_create_arc c sp mp ep approximate_length resolution target_arc
        = some a →
      a.length = |a.angle_radians| * a.radius ∧ (0 ≤ c.radius → 0 ≤ a.length)) := by
  constructor
  · intro angle_1 angle_2 hres hlen
    simp only [arc.try_create_arc]
    rw [hres]
    dsimp only
    rw [if_pos hlen]
  · intro a h
    simp only [arc.try_create_arc] at h
    rcases hres : arc.resolve_angles
        (c.get_radians (c.get_closest_point sp) (c.get_closest_point mp))
        (c.get_radians (c.get_closest_point mp) (c.get_closest_point ep))
        (c.get_radians (c.get_closest_point ep) (c.get_closest_point sp))
      with _ | ⟨angle_1, angle_2⟩
    · rw [hres] at h
      exact absurd h (by simp)
    · rw [hres] at h
      dsimp only at h
      split_ifs at h with hlen hmin hmag
      · rw [Option.some.injEq] at h
        subst h
        have hpos : (0 : ℝ) < angle_1 + angle_2 := by
          unfold MIN_ALLOWED_ARC_THETA at hmin
          push_neg at hmin
          linarith
        constructor
        · dsimp only
          rw [abs_of_nonpos (by linarith)]
          ring
        · intro hr
          dsimp only
          exact mul_nonneg hpos.le hr
      · rw [Option.some.injEq] at h
        subst h
        have hpos : (0 : ℝ) < angle_1 + angle_2 := by
          unfold MIN_ALLOWED_ARC_THETA at hmin
          push_neg at hmin
          linarith
        constructor
        · dsimp only
          rw [abs_of_pos hpos]
        · intro hr
          dsimp only
          exact mul_nonneg hpos.le hr

/-- C3 counterexample: with the circle record of radius -1 about the origin
and witness points (1,0), (0,1), (-1,0), `arc::try_create_arc` succeeds
(with `approximate_length = -pi` and `resolution = 1`), and the returned
arc's length is negative, refuting the unconditional nonnegativity in the
claim. -/
theorem try_create_arc_negative_length :
    arc.try_create_arc negCircle pE pN pW (-Real.pi) 1 dummyArc = some arcNegative ∧
    arcNegative.length < 0 := by
  refine ⟨eval_try_arc_negative, ?_⟩
  unfold arcNegative
  dsimp only
  simp [Real.pi_pos]

theorem try_create_arc_length_spec_witness :
    arc.try_create_arc unitCircle pE pN pW Real.pi 1 dummyArc = some arcQuarterHalf ∧
    arcQuarterHalf.length = |arcQuarterHalf.angle_radians| * arcQuarterHalf.radius ∧
    0 ≤ arcQuarterHalf.length := by
  have h := (try_create_arc_length_spec unitCircle pE pN pW Real.pi 1 dummyArc).2
    arcQuarterHalf eval_try_arc_quarter
  refine ⟨eval_try_arc_quarter, h.1, h.2 ?_⟩
  unfold unitCircle
  norm_num

end ArcWelder
